import Mathlib

/-!
Verification development for the client-side control plane of the
amazon-chime-sdk-js repository snapshot: the subscribe/acknowledge exchange
task (SubscribeAndReceiveSubscribeAckTask) and the adaptive simulcast uplink
bandwidth policy (DefaultSimulcastUplinkPolicy).

The TypeScript sources are embedded shallowly: pure helper functions become
Lean functions, the mutable class state becomes explicit state records with
state-passing transition functions, JavaScript numbers that carry bandwidth
or scale values become rationals, and millisecond clock readings become an
explicit natural-number parameter.
-/

namespace ChimeSdk

/-! ## SubscribeAndReceiveSubscribeAckTask -/

namespace SubscribeAndReceiveSubscribeAckTask

/-- Direction attribute of one video media section of an SDP, as returned by
DefaultSDP.videoSectionDirections (the SDP parser itself is an external
collaborator; the task only consumes the ordered direction list). -/
inductive Direction
  | sendrecv
  | sendonly
  | recvonly
  | inactive
deriving DecidableEq, Repr

/-- Loop body of fixUpSubscriptionOrder: walks the ordered video-section
direction list, keeping a cursor (subscriptionsWithoutZeroIndex) into the
zero-filtered subscription array, exactly as the for/num-index loop in the
source does. -/
def fixUpLoop (subscriptionsWithoutZero : List Int) :
    List Direction → Nat → List Int
  | [], _ => []
  | direction :: rest, subscriptionsWithoutZeroIndex =>
    if direction = Direction.recvonly then
      if subscriptionsWithoutZero.length ≤ subscriptionsWithoutZeroIndex then
        0 :: fixUpLoop subscriptionsWithoutZero rest subscriptionsWithoutZeroIndex
      else
        subscriptionsWithoutZero.getD subscriptionsWithoutZeroIndex 0 ::
          fixUpLoop subscriptionsWithoutZero rest (subscriptionsWithoutZeroIndex + 1)
    else
      0 :: fixUpLoop subscriptionsWithoutZero rest subscriptionsWithoutZeroIndex

/-- Embedding of fixUpSubscriptionOrder. The SDP string argument is
represented by the ordered direction list its video sections carry, which is
all the source reads from it (through videoSectionDirections). -/
def fixUpSubscriptionOrder (directions : List Direction)
    (videoSubscriptions : List Int) : List Int :=
  fixUpLoop (videoSubscriptions.filter (fun value => value != 0)) directions 0

/-- Consuming reformulation of the loop used to reason about it: instead of a
cursor into the filtered array it consumes the not-yet-used values. -/
def fixUpConsume : List Int → List Direction → List Int
  | _, [] => []
  | remaining, direction :: rest =>
    if direction = Direction.recvonly then
      match remaining with
      | [] => 0 :: fixUpConsume [] rest
      | v :: vs => v :: fixUpConsume vs rest
    else
      0 :: fixUpConsume remaining rest

/-- Values the repaired array holds at the sections selected by p, in section
order. -/
def sectionValues (p : Direction → Bool) (directions : List Direction)
    (values : List Int) : List Int :=
  ((directions.zip values).filter (fun q => p q.1)).map Prod.snd

/-- Status codes a terminated exchange surfaces (the full
MeetingSessionStatusCode enum lives outside the sampled sources; only the two
codes the task uses are modelled). -/
inductive MeetingSessionStatusCode
  | TaskFailed
  | SignalingInternalServerError
deriving DecidableEq, Repr

/-- Frame type tag of a received signal frame; SUBSCRIBE_ACK is the one the
interceptor matches, every other type is collapsed into otherFrame. -/
inductive SdkSignalFrameType
  | SUBSCRIBE_ACK
  | otherFrame
deriving DecidableEq, Repr

/-- Type tag of a signaling client event; ReceivedSignalFrame is the one the
interceptor matches, every other type is collapsed into otherEventType. -/
inductive SignalingClientEventType
  | ReceivedSignalFrame
  | otherEventType
deriving DecidableEq, Repr

/-- One inbound signaling client event, carrying the fields the interceptor
reads. isConnectionTerminated abstracts the event method of the same name
(defined outside the sampled sources); closeCode and messageType are only
meaningful for terminated and frame events respectively. The suback payload
is abstracted to an identifier. -/
structure SignalingClientEvent where
  isConnectionTerminated : Bool
  closeCode : Int
  eventType : SignalingClientEventType
  messageType : SdkSignalFrameType
  suback : Nat
deriving DecidableEq, Repr

/-- What one handleSignalingClientEvent invocation does to the pending
exchange: which status it surfaces through
audioVideoController.handleMeetingSessionStatus, whether it removes the
interceptor from the signaling client, and whether it resolves or rejects
the pending promise. -/
structure InterceptorStep where
  surfacedStatus : Option MeetingSessionStatusCode := none
  removedObserver : Bool := false
  resolvedWith : Option Nat := none
  rejectedWait : Bool := false
deriving DecidableEq, Repr

/-- Embedding of Interceptor.handleSignalingClientEvent: a terminated event
surfaces a status classified from the close code and returns; an event that
is not a SUBSCRIBE_ACK signal frame is ignored; a SUBSCRIBE_ACK frame removes
the observer and resolves the wait with the suback frame. -/
def handleSignalingClientEvent (event : SignalingClientEvent) :
    InterceptorStep :=
  if event.isConnectionTerminated then
    let statusCode : MeetingSessionStatusCode :=
      if event.closeCode ≥ 4500 ∧ event.closeCode < 4600 then
        MeetingSessionStatusCode.SignalingInternalServerError
      else
        MeetingSessionStatusCode.TaskFailed
    { surfacedStatus := some statusCode }
  else if event.eventType ≠ SignalingClientEventType.ReceivedSignalFrame ∨
      event.messageType ≠ SdkSignalFrameType.SUBSCRIBE_ACK then
    {}
  else
    { removedObserver := true, resolvedWith := some event.suback }

/-- A terminated signaling event with the given close code (the other fields
are irrelevant on the termination path). -/
def terminatedEvent (closeCode : Int) : SignalingClientEvent :=
  { isConnectionTerminated := true
    closeCode := closeCode
    eventType := SignalingClientEventType.otherEventType
    messageType := SdkSignalFrameType.otherFrame
    suback := 0 }

/-- Settlement state of the promise receiveSubscribeAck returns. -/
inductive PromiseState
  | pending
  | resolved
  | rejected
deriving DecidableEq, Repr

/-- A JavaScript promise settles at most once: resolve/reject on an already
settled promise is a no-op. -/
def settlePromise (p : PromiseState) (outcome : PromiseState) : PromiseState :=
  if p = PromiseState.pending then outcome else p

/-- State of one task execution relevant to cancellation: whether
this.taskCanceler is non-null, whether the interceptor is still registered on
the signaling client (removeObserver on an unregistered observer is a set
delete, hence a no-op), the promise state, and an instrumentation counter of
how many times Interceptor.cancel ran its teardown. -/
structure AckTaskState where
  taskCancelerRegistered : Bool
  observerRegistered : Bool
  promise : PromiseState
  teardownCalls : Nat
deriving DecidableEq, Repr

/-- Embedding of Interceptor.cancel: removes the observer from the signaling
client and rejects the pending wait (a no-op if it already settled). -/
def interceptorCancel (s : AckTaskState) : AckTaskState :=
  { s with
    observerRegistered := false
    promise := settlePromise s.promise PromiseState.rejected
    teardownCalls := s.teardownCalls + 1 }

/-- Embedding of SubscribeAndReceiveSubscribeAckTask.cancel: if a task
canceler is registered it is invoked and nulled out, otherwise the call
returns silently. -/
def cancel (s : AckTaskState) : AckTaskState :=
  if s.taskCancelerRegistered then
    { interceptorCancel s with taskCancelerRegistered := false }
  else
    s

/-- Embedding of the tail of receiveSubscribeAck: a fresh pending promise is
created, the interceptor is registered on the signaling client and stored as
this.taskCanceler. -/
def registerAckWait (s : AckTaskState) : AckTaskState :=
  { s with
    taskCancelerRegistered := true
    observerRegistered := true
    promise := PromiseState.pending }

/-- The successful path of handleSignalingClientEvent applied to the task
state: the observer is removed and the promise resolved; this.taskCanceler is
left in place. -/
def resolveOnAck (s : AckTaskState) : AckTaskState :=
  { s with
    observerRegistered := false
    promise := settlePromise s.promise PromiseState.resolved }

/-- Task state before run() reaches receiveSubscribeAck: this.taskCanceler is
still null, nothing is registered, no promise exists yet (represented as
pending), no teardown has run. -/
def preRegistrationState : AckTaskState :=
  { taskCancelerRegistered := false
    observerRegistered := false
    promise := PromiseState.pending
    teardownCalls := 0 }

end SubscribeAndReceiveSubscribeAckTask

/-! ## DefaultSimulcastUplinkPolicy -/

namespace DefaultSimulcastUplinkPolicy

/-- The ActiveStreams enum of the policy source. -/
inductive ActiveStreams
  | kHi
  | kHiAndLow
  | kMidAndLow
  | kLow
deriving DecidableEq, Repr

/-- Static constant defaultUplinkBandwidthKbps. -/
def defaultUplinkBandwidthKbps : ℚ := 1200

/-- Static constant startupDurationMs. -/
def startupDurationMs : Nat := 6000

/-- Static constant holdDownDurationMs. -/
def holdDownDurationMs : Nat := 4000

/-- Static constant kHiDisabledRate. -/
def kHiDisabledRate : ℚ := 700

/-- Static constant kMidDisabledRate. -/
def kMidDisabledRate : ℚ := 240

/-- One RTCRtpEncodingParameters entry as the policy fills it in. -/
structure RTCRtpEncodingParameters where
  rid : String
  active : Bool
  scaleResolutionDownBy : ℚ
  maxBitrate : Nat
deriving DecidableEq, Repr

/-- Modelled from the spec: SimulcastTransceiverController (not among the
sampled sources) exposes NAME_ARR_ASCENDING, the fixed ascending simulcast
layer identifiers; the spec data model fixes them as low/mid/high and the
sampled sources use the rid literals low, mid and hi. -/
def NAME_ARR_ASCENDING : List String := ["low", "mid", "hi"]

/-- One entry of VideoStreamIndex.localStreamDescriptions, with the two
fields wantsResubscribe reads. A streamId of 0 models the falsy ids the
source skips. -/
structure VideoStreamDescription where
  streamId : Nat
  disabledByWebRTC : Bool
deriving DecidableEq, Repr

/-- The capture/encode parameter value object the policy stores (its class
lives outside the sampled sources; only construction and cloning are used,
so it is a plain record here). -/
structure DefaultVideoAndEncodeParameter where
  cameraWidth : Nat
  cameraHeight : Nat
  cameraFrameRate : Nat
  maxEncodeBitrateKbps : Nat
  isSimulcast : Bool
deriving DecidableEq, Repr

/-- The mutable instance fields of DefaultSimulcastUplinkPolicy. The two
RTCRtpEncodingParameters maps keyed by rid are lists ordered like
NAME_ARR_ASCENDING; activeStreamsToPublish is undefined until
chooseEncodingParameters first assigns it, hence an Option. The videoIndex
collaborator is not stored: its two read methods become arguments of
updateIndex and wantsResubscribe. -/
structure PolicyState where
  numSenders : Nat
  shouldDisableSimulcast : Bool
  optimalParameters : DefaultVideoAndEncodeParameter
  parametersInEffect : DefaultVideoAndEncodeParameter
  newQualityMap : List RTCRtpEncodingParameters
  currentQualityMap : List RTCRtpEncodingParameters
  newActiveStreams : ActiveStreams
  currentActiveStreams : ActiveStreams
  lastUplinkBandwidthKbps : ℚ
  startTimeMs : Nat
  lastUpdatedMs : Nat
  currLocalDescriptions : List VideoStreamDescription
  nextLocalDescriptions : List VideoStreamDescription
  activeStreamsToPublish : Option ActiveStreams
deriving DecidableEq, Repr

/-- Loop body of fillEncodingParamWithBitrates: walks the rid names with the
running scale value, which halves after every layer, pairing each rid with
the bitrate at the same position. -/
def fillLoop (scale : ℚ) : List String → List Nat →
    List RTCRtpEncodingParameters
  | [], _ => []
  | ridName :: rest, bitrateArr =>
    { rid := ridName
      active := decide (0 < bitrateArr.headD 0)
      scaleResolutionDownBy := max scale 1
      maxBitrate := bitrateArr.headD 0 * 1000 } ::
      fillLoop (scale / 2) rest bitrateArr.tail

/-- Embedding of fillEncodingParamWithBitrates: each layer is active iff its
bitrate is positive, maxBitrate converts kbps to bps, and the downscale
factor starts at 4 (or at 1 when simulcast is disabled, so the single
surviving stream is never scaled), halves per layer and is clamped below by
1. -/
def fillEncodingParamWithBitrates (shouldDisableSimulcast : Bool)
    (bitratesKbps : List Nat) : List RTCRtpEncodingParameters :=
  fillLoop (if shouldDisableSimulcast then 1 else 4) NAME_ARR_ASCENDING
    bitratesKbps

/-- Lookup of one rid in a quality map, as Map.get on the rid-keyed map. -/
def getParam (qualityMap : List RTCRtpEncodingParameters) (ridName : String) :
    Option RTCRtpEncodingParameters :=
  qualityMap.find? (fun p => p.rid = ridName)

/-- Loop of encodingParametersEqual over the two rid-keyed maps: they agree
on every rid of NAME_ARR_ASCENDING (compareEncodingParameter stringifies
both entries, which on these records is structural equality). -/
def qualityMapsEqual (newMap curMap : List RTCRtpEncodingParameters) : Bool :=
  NAME_ARR_ASCENDING.all
    (fun ridName => getParam newMap ridName = getParam curMap ridName)

/-- Embedding of encodingParametersEqual: the proposed and committed maps
agree on every rid. -/
def encodingParametersEqual (s : PolicyState) : Bool :=
  qualityMapsEqual s.newQualityMap s.currentQualityMap

/-- The hysteresisIncrease threshold calculateEncodingParameters assigns for
the current layer set. -/
def hysteresisIncrease (s : PolicyState) : ℚ :=
  match s.currentActiveStreams with
  | ActiveStreams.kHi => s.lastUplinkBandwidthKbps + 1
  | ActiveStreams.kHiAndLow => 2400
  | ActiveStreams.kMidAndLow => 1000
  | ActiveStreams.kLow => 300

/-- The hysteresisDecrease threshold calculateEncodingParameters assigns for
the current layer set. -/
def hysteresisDecrease (s : PolicyState) : ℚ :=
  match s.currentActiveStreams with
  | ActiveStreams.kHi => 0
  | ActiveStreams.kHiAndLow => kHiDisabledRate
  | ActiveStreams.kMidAndLow => kMidDisabledRate
  | ActiveStreams.kLow => 0

/-- Embedding of calculateEncodingParameters. When the sender count changed
or the last bandwidth crossed a hysteresis threshold, the proposed layer set
and its three bitrates are recomputed and written to newActiveStreams and
newQualityMap (the log statement has no state effect and is dropped);
otherwise the state is returned unchanged, as the source returns the
untouched this.newQualityMap. -/
def calculateEncodingParameters (numSendersChanged : Bool) (s : PolicyState) :
    PolicyState :=
  if numSendersChanged = true ∨
      s.lastUplinkBandwidthKbps ≥ hysteresisIncrease s ∨
      s.lastUplinkBandwidthKbps ≤ hysteresisDecrease s then
    if s.shouldDisableSimulcast then
      { s with
        newActiveStreams := ActiveStreams.kHi
        newQualityMap :=
          fillEncodingParamWithBitrates s.shouldDisableSimulcast [0, 1200, 0] }
    else if s.numSenders ≤ 4 ∧ s.lastUplinkBandwidthKbps ≥ kHiDisabledRate then
      { s with
        newActiveStreams := ActiveStreams.kHiAndLow
        newQualityMap :=
          fillEncodingParamWithBitrates s.shouldDisableSimulcast [300, 0, 1200] }
    else if s.lastUplinkBandwidthKbps ≥ kMidDisabledRate then
      { s with
        newActiveStreams := ActiveStreams.kMidAndLow
        newQualityMap :=
          fillEncodingParamWithBitrates s.shouldDisableSimulcast
            [if s.lastUplinkBandwidthKbps ≥ 350 then 200 else 150,
             if s.numSenders ≤ 6 then 600 else 350, 0] }
    else
      { s with
        newActiveStreams := ActiveStreams.kLow
        newQualityMap :=
          fillEncodingParamWithBitrates s.shouldDisableSimulcast [300, 0, 0] }
  else
    s

/-- The sample fed to updateConnectionMetric; isNaN models a NaN uplinkKbps
value, which ℚ cannot carry. -/
structure ConnectionMetrics where
  uplinkKbps : ℚ
  isNaN : Bool
deriving DecidableEq, Repr

/-- The hold-down window updateConnectionMetric computes from the current
(not the proposed) layer set and the raw sample: doubled in the lowest tier,
halved when a two-layer tier just crossed its disable threshold, base
otherwise. -/
def holdTimeOf (currentActiveStreams : ActiveStreams) (uplinkKbps : ℚ) :
    Nat :=
  if currentActiveStreams = ActiveStreams.kLow then
    holdDownDurationMs * 2
  else if (currentActiveStreams = ActiveStreams.kMidAndLow ∧
      uplinkKbps ≤ kMidDisabledRate) ∨
      (currentActiveStreams = ActiveStreams.kHiAndLow ∧
      uplinkKbps ≤ kHiDisabledRate) then
    holdDownDurationMs / 2
  else
    holdDownDurationMs

/-- First mutation of updateConnectionMetric on a valid sample: the first
valid sample records startTimeMs (Date.now() is the nowMs argument). -/
def recordStartTime (nowMs : Nat) (s : PolicyState) : PolicyState :=
  if s.startTimeMs = 0 then { s with startTimeMs := nowMs } else s

/-- Second mutation of updateConnectionMetric: within the 6000 ms startup
window after the first valid sample the stored bandwidth is the 1200 kbps
default, afterwards it is the raw sample. -/
def applyStartupGrace (nowMs : Nat) (metrics : ConnectionMetrics)
    (s : PolicyState) : PolicyState :=
  if nowMs - s.startTimeMs < startupDurationMs then
    { s with lastUplinkBandwidthKbps := defaultUplinkBandwidthKbps }
  else
    { s with lastUplinkBandwidthKbps := metrics.uplinkKbps }

/-- Embedding of updateConnectionMetric. NaN samples are ignored; the first
valid sample records startTimeMs; within the 6000 ms startup window the
stored bandwidth is the 1200 kbps default instead of the raw sample; inside
the hold-down window the method returns before recomputing; otherwise the
proposed parameters are recalculated without forcing. Date.now() is the
nowMs argument. -/
def updateConnectionMetric (nowMs : Nat) (metrics : ConnectionMetrics)
    (s : PolicyState) : PolicyState :=
  if metrics.isNaN then
    s
  else
    let s2 := applyStartupGrace nowMs metrics (recordStartTime nowMs s)
    if nowMs < s2.lastUpdatedMs +
        holdTimeOf s2.currentActiveStreams metrics.uplinkKbps then
      s2
    else
      calculateEncodingParameters false s2

/-- Embedding of chooseEncodingParameters: commits the proposed map and layer
set as current, and republishes the layer set when it differs from the last
published one (the asynchronous observer dispatch itself has no effect on
the policy state). Returns the committed map alongside the new state. -/
def chooseEncodingParameters (s : PolicyState) :
    List RTCRtpEncodingParameters × PolicyState :=
  let s1 := { s with
    currentQualityMap := s.newQualityMap
    currentActiveStreams := s.newActiveStreams }
  let s2 :=
    if s1.activeStreamsToPublish ≠ some s1.newActiveStreams then
      { s1 with activeStreamsToPublish := some s1.newActiveStreams }
    else
      s1
  (s2.currentQualityMap, s2)

/-- Embedding of updateIndex. The two videoIndex reads become the arguments:
the count of video-publishing participants other than self, and the total
participant count (an Int, matching the signed sentinel the source guards
with numParticipants >= 0). -/
def updateIndex (numberOfVideoPublishingParticipantsExcludingSelf : Nat)
    (numberOfParticipants : Int) (s : PolicyState) : PolicyState :=
  let numSenders := numberOfVideoPublishingParticipantsExcludingSelf + 1
  let numSendersChanged := numSenders ≠ s.numSenders
  let newShouldDisableSimulcast :=
    numberOfParticipants ≥ 0 ∧ numberOfParticipants ≤ 2
  let shouldDisableSimulcastChanged :=
    s.shouldDisableSimulcast ≠ newShouldDisableSimulcast
  let s1 := { s with
    numSenders := numSenders
    shouldDisableSimulcast := decide newShouldDisableSimulcast
    optimalParameters :=
      { cameraWidth := 1280
        cameraHeight := 768
        cameraFrameRate := 15
        maxEncodeBitrateKbps := 1400
        isSimulcast := false } }
  calculateEncodingParameters
    (decide numSendersChanged || decide shouldDisableSimulcastChanged) s1

/-- Whether one next description with a valid id is tracked in the previous
snapshot with a different disabledByWebRTC flag. -/
def descriptionFlagFlipped (curr : List VideoStreamDescription)
    (d : VideoStreamDescription) : Bool :=
  d.streamId != 0 &&
    match curr.find? (fun v => v.streamId = d.streamId) with
    | some prev => d.disabledByWebRTC != prev.disabledByWebRTC
    | none => false

/-- Whether any tracked local stream with a valid id flipped its
disabledByWebRTC flag between the previous snapshot and the next
descriptions: the contribution of the for loop in wantsResubscribe. -/
def disabledFlagFlipped (next : List VideoStreamDescription)
    (curr : List VideoStreamDescription) : Bool :=
  next.any (descriptionFlagFlipped curr)

/-- Loop of wantsResubscribe over the next local descriptions, carried as a
fold over the constraintDiff accumulator exactly as the source loop mutates
it. -/
def wantsResubscribeLoop (curr : List VideoStreamDescription)
    (next : List VideoStreamDescription) (constraintDiff : Bool) : Bool :=
  next.foldl (fun acc d =>
    if d.streamId != 0 then
      match curr.find? (fun v => v.streamId = d.streamId) with
      | some prev => if d.disabledByWebRTC != prev.disabledByWebRTC then true else acc
      | none => acc
    else acc) constraintDiff

/-- Embedding of wantsResubscribe: constraintDiff starts as the negated map
comparison, the loop ors in any disabled-flag flip among tracked streams,
a true result refreshes lastUpdatedMs (Date.now() is the nowMs argument),
and the current descriptions are snapshotted unconditionally. Returns the
boolean alongside the new state. -/
def wantsResubscribe (nowMs : Nat)
    (localStreamDescriptions : List VideoStreamDescription) (s : PolicyState) :
    Bool × PolicyState :=
  let constraintDiff :=
    wantsResubscribeLoop s.currLocalDescriptions localStreamDescriptions
      (! encodingParametersEqual s)
  let s1 := { s with nextLocalDescriptions := localStreamDescriptions }
  let s2 := if constraintDiff then { s1 with lastUpdatedMs := nowMs } else s1
  let s3 := { s2 with currLocalDescriptions := s2.nextLocalDescriptions }
  (constraintDiff, s3)

/-- The state the constructor builds (Date.now() at construction is the
nowMs argument): both maps hold the 300/0/1200 fill, both layer sets are
kHiAndLow, the bandwidth starts at the 1200 kbps default and
activeStreamsToPublish is still unassigned. -/
def initialPolicyState (nowMs : Nat) : PolicyState :=
  { numSenders := 0
    shouldDisableSimulcast := false
    optimalParameters :=
      { cameraWidth := 0, cameraHeight := 0, cameraFrameRate := 0
        maxEncodeBitrateKbps := 0, isSimulcast := true }
    parametersInEffect :=
      { cameraWidth := 0, cameraHeight := 0, cameraFrameRate := 0
        maxEncodeBitrateKbps := 0, isSimulcast := true }
    newQualityMap := fillEncodingParamWithBitrates false [300, 0, 1200]
    currentQualityMap := fillEncodingParamWithBitrates false [300, 0, 1200]
    newActiveStreams := ActiveStreams.kHiAndLow
    currentActiveStreams := ActiveStreams.kHiAndLow
    lastUplinkBandwidthKbps := defaultUplinkBandwidthKbps
    startTimeMs := 0
    lastUpdatedMs := nowMs
    currLocalDescriptions := []
    nextLocalDescriptions := []
    activeStreamsToPublish := none }

/-- Fixture: a 50 kbps valid sample. -/
def metrics50 : ConnectionMetrics := { uplinkKbps := 50, isNaN := false }

/-- Fixture: three senders and an 800 kbps estimate, in the high band. -/
def policyStateHighBand : PolicyState :=
  { initialPolicyState 0 with lastUplinkBandwidthKbps := 800, numSenders := 3 }

/-- Fixture: simulcast administratively disabled with a very low estimate. -/
def policyStateDisabled : PolicyState :=
  { initialPolicyState 0 with
    shouldDisableSimulcast := true
    lastUplinkBandwidthKbps := 50 }

/-- Fixture: currently in the lowest tier, last transition at 1000 ms. -/
def policyStateLowTier : PolicyState :=
  { initialPolicyState 0 with
    currentActiveStreams := ActiveStreams.kLow
    lastUpdatedMs := 1000 }

/-- Fixture: the first valid sample arrived at 1 ms. -/
def policyStateWarmup : PolicyState :=
  { initialPolicyState 0 with startTimeMs := 1 }

/-- Fixture: a proposed quality map that drifted away from the committed
one (the high layer was dropped) without having been committed yet. -/
def driftedPolicyState : PolicyState :=
  { initialPolicyState 0 with
    newQualityMap := fillEncodingParamWithBitrates false [300, 0, 0] }

end DefaultSimulcastUplinkPolicy

/-! ## Helper lemmas about the subscription-order repair -/

namespace SubscribeAndReceiveSubscribeAckTask

/-- Unfolding step for sectionValues on matching cons cells. -/
theorem sectionValues_cons (p : Direction → Bool) (d : Direction)
    (rest : List Direction) (v : Int) (vs : List Int) :
    sectionValues p (d :: rest) (v :: vs) =
      if p d then v :: sectionValues p rest vs else sectionValues p rest vs := by
  by_cases h : p d
  · simp [sectionValues, h]
  · simp [sectionValues, h]

/-- The cursor-based loop of the source equals the consuming reformulation on
the not-yet-consumed suffix of the filtered array. -/
theorem fixUpLoop_eq_consume (directions : List Direction)
    (subs : List Int) (idx : Nat) :
    fixUpLoop subs directions idx = fixUpConsume (subs.drop idx) directions := by
  induction directions generalizing idx with
  | nil => simp [fixUpLoop, fixUpConsume]
  | cons d rest ih =>
    by_cases hd : d = Direction.recvonly
    · by_cases hlen : subs.length ≤ idx
      · have hnil : subs.drop idx = [] := List.drop_eq_nil_of_le hlen
        rw [hnil]
        simp only [fixUpLoop, fixUpConsume, if_pos hd, if_pos hlen]
        rw [ih idx, hnil]
      · have hidx : idx < subs.length := Nat.lt_of_not_le hlen
        have hdrop : subs.drop idx = subs[idx] :: subs.drop (idx + 1) :=
          List.drop_eq_getElem_cons hidx
        have hgetD : subs.getD idx 0 = subs[idx] := List.getD_eq_getElem subs 0 hidx
        rw [hdrop]
        simp only [fixUpLoop, fixUpConsume, if_pos hd, if_neg hlen]
        rw [hgetD, ih (idx + 1)]
    · simp only [fixUpLoop, fixUpConsume, if_neg hd]
      rw [ih idx]

/-- The consuming loop produces one entry per direction. -/
theorem fixUpConsume_length (directions : List Direction) (subs : List Int) :
    (fixUpConsume subs directions).length = directions.length := by
  induction directions generalizing subs with
  | nil => simp [fixUpConsume]
  | cons d rest ih =>
    by_cases hd : d = Direction.recvonly
    · cases subs with
      | nil => simp only [fixUpConsume, if_pos hd, List.length_cons, ih]
      | cons v vs => simp only [fixUpConsume, if_pos hd, List.length_cons, ih]
    · simp only [fixUpConsume, if_neg hd, List.length_cons, ih]

/-- Every section that is not receive-only holds 0 in the consuming loop's
output. -/
theorem fixUpConsume_nonrecv (directions : List Direction) (subs : List Int) :
    sectionValues (fun d => decide (d ≠ Direction.recvonly)) directions
      (fixUpConsume subs directions) =
    List.replicate
      (directions.countP (fun d => decide (d ≠ Direction.recvonly))) 0 := by
  induction directions generalizing subs with
  | nil => simp [fixUpConsume, sectionValues]
  | cons d rest ih =>
    by_cases hd : d = Direction.recvonly
    · cases subs with
      | nil =>
        simp only [fixUpConsume, if_pos hd]
        rw [sectionValues_cons]
        simp only [hd, List.countP_cons]
        simpa using ih []
      | cons v vs =>
        simp only [fixUpConsume, if_pos hd]
        rw [sectionValues_cons]
        simp only [hd, List.countP_cons]
        simpa using ih vs
    · simp only [fixUpConsume, if_neg hd]
      rw [sectionValues_cons]
      simp only [List.countP_cons]
      simpa [hd, List.replicate_succ] using ih subs

/-- The receive-only sections hold, in order, the values of the consumed
array, padded with zeros once it runs out. -/
theorem fixUpConsume_recv (directions : List Direction) (subs : List Int) :
    sectionValues (fun d => decide (d = Direction.recvonly)) directions
      (fixUpConsume subs directions) =
    subs.take (directions.countP (fun d => decide (d = Direction.recvonly))) ++
      List.replicate
        (directions.countP (fun d => decide (d = Direction.recvonly)) -
          subs.length) 0 := by
  induction directions generalizing subs with
  | nil => simp [fixUpConsume, sectionValues]
  | cons d rest ih =>
    by_cases hd : d = Direction.recvonly
    · cases subs with
      | nil =>
        simp only [fixUpConsume, if_pos hd]
        rw [sectionValues_cons]
        simp only [hd, List.countP_cons]
        simpa [List.replicate_succ] using ih []
      | cons v vs =>
        simp only [fixUpConsume, if_pos hd]
        rw [sectionValues_cons]
        simp only [hd, List.countP_cons]
        simpa [Nat.succ_sub_succ] using ih vs
    · simp only [fixUpConsume, if_neg hd]
      rw [sectionValues_cons]
      simp only [List.countP_cons]
      simpa [hd] using ih subs

/-- C1: for every local SDP video-section direction list and every input
subscription array, the repaired array has exactly one entry per video media
section in section order (its length equals the direction list's length);
every position whose section direction is not recvonly holds 0; the recvonly
positions hold, in order, the successive non-zero values of the input array;
and once those run out every remaining recvonly position holds 0. The output
is a function of the direction list and the input array alone, so it is
deterministic by construction. -/
theorem fixUpSubscriptionOrder_spec (directions : List Direction)
    (videoSubscriptions : List Int) :
    (fixUpSubscriptionOrder directions videoSubscriptions).length =
      directions.length
    ∧ sectionValues (fun d => decide (d ≠ Direction.recvonly)) directions
        (fixUpSubscriptionOrder directions videoSubscriptions) =
      List.replicate
        (directions.countP (fun d => decide (d ≠ Direction.recvonly))) 0
    ∧ sectionValues (fun d => decide (d = Direction.recvonly)) directions
        (fixUpSubscriptionOrder directions videoSubscriptions) =
      (videoSubscriptions.filter (fun value => value != 0)).take
          (directions.countP (fun d => decide (d = Direction.recvonly))) ++
        List.replicate
          (directions.countP (fun d => decide (d = Direction.recvonly)) -
            (videoSubscriptions.filter (fun value => value != 0)).length) 0 := by
  have h : fixUpSubscriptionOrder directions videoSubscriptions =
      fixUpConsume (videoSubscriptions.filter (fun value => value != 0))
        directions := by
    rw [fixUpSubscriptionOrder, fixUpLoop_eq_consume]
    rw [List.drop_zero]
  rw [h]
  exact ⟨fixUpConsume_length directions _, fixUpConsume_nonrecv directions _,
    fixUpConsume_recv directions _⟩

/-- C2 counterexample: a connection-terminated event with close code 4500
arriving while the subscribe acknowledgement is awaited surfaces the
classified status, but the handler neither rejects the pending wait nor
removes the observer registration in that step, contrary to the claim that
both happen in the same step as the status surfacing. -/
theorem terminated_step_keeps_wait_counterexample :
    (handleSignalingClientEvent (terminatedEvent 4500)).surfacedStatus =
        some MeetingSessionStatusCode.SignalingInternalServerError
    ∧ (handleSignalingClientEvent (terminatedEvent 4500)).rejectedWait = false
    ∧ (handleSignalingClientEvent (terminatedEvent 4500)).removedObserver =
        false := by
  decide

/-- C2 amended: whenever a connection-terminated signaling event arrives
while the task awaits the subscribe acknowledgement, the handler surfaces
the classified status (internal signaling error for the reserved close-code
band, task failure otherwise) to the session status handler and returns; it
does not reject the pending wait and does not remove the observer
registration in that step — rejection and removal happen only through
cancel(). -/
theorem handleSignalingClientEvent_terminated_step
    (event : SignalingClientEvent)
    (h : event.isConnectionTerminated = true) :
    handleSignalingClientEvent event =
      { surfacedStatus :=
          some (if event.closeCode ≥ 4500 ∧ event.closeCode < 4600 then
            MeetingSessionStatusCode.SignalingInternalServerError
          else
            MeetingSessionStatusCode.TaskFailed)
        removedObserver := false
        resolvedWith := none
        rejectedWait := false } := by
  simp [handleSignalingClientEvent, h]

/-- C2 amended witness: the terminated event with close code 4700 surfaces
the generic task failure and leaves the wait pending and the observer
registered. -/
theorem handleSignalingClientEvent_terminated_step_witness :
    handleSignalingClientEvent (terminatedEvent 4700) =
      { surfacedStatus := some MeetingSessionStatusCode.TaskFailed
        removedObserver := false
        resolvedWith := none
        rejectedWait := false } := by
  rw [handleSignalingClientEvent_terminated_step (terminatedEvent 4700) rfl]
  decide

/-- C6: a connection-terminated event received while awaiting the subscribe
acknowledgement surfaces SignalingInternalServerError exactly when its close
code lies in the band 4500 to 4599, and TaskFailed for every other close
code. -/
theorem closeCode_classification (event : SignalingClientEvent)
    (h : event.isConnectionTerminated = true) :
    (handleSignalingClientEvent event).surfacedStatus =
      some (if event.closeCode ≥ 4500 ∧ event.closeCode < 4600 then
        MeetingSessionStatusCode.SignalingInternalServerError
      else
        MeetingSessionStatusCode.TaskFailed) := by
  simp [handleSignalingClientEvent, h]

/-- C6 witness: close code 4599 still classifies as the internal signaling
error. -/
theorem closeCode_classification_witness :
    (handleSignalingClientEvent (terminatedEvent 4599)).surfacedStatus =
      some MeetingSessionStatusCode.SignalingInternalServerError := by
  rw [closeCode_classification (terminatedEvent 4599) rfl]
  decide

/-- C7: calling cancel() twice is harmless — both transition functions are
total, the second call is the identity on the state reached after the first,
and the Interceptor teardown (observer removal plus rejection) runs at most
once; calling cancel() after the acknowledgement already settled the task
leaves the resolved outcome and the (already removed) observer registration
unchanged. -/
theorem cancel_twice_teardown_at_most_once (s : AckTaskState) :
    cancel (cancel s) = cancel s
    ∧ (cancel (cancel s)).teardownCalls ≤ s.teardownCalls + 1
    ∧ (resolveOnAck (registerAckWait s)).promise = PromiseState.resolved
    ∧ (cancel (resolveOnAck (registerAckWait s))).promise =
        PromiseState.resolved
    ∧ (cancel (resolveOnAck (registerAckWait s))).observerRegistered =
        (resolveOnAck (registerAckWait s)).observerRegistered := by
  by_cases h : s.taskCancelerRegistered
  · simp [cancel, interceptorCancel, registerAckWait, resolveOnAck,
      settlePromise, h]
  · simp [cancel, interceptorCancel, registerAckWait, resolveOnAck,
      settlePromise, h]

/-- C10: cancel() called before run() has registered the
acknowledgement-wait interceptor (taskCanceler still null) returns silently
with no effect on the state, and does not prevent a subsequent
receiveSubscribeAck from registering its observer and leaving the wait
pending. -/
theorem cancel_before_registration (s : AckTaskState)
    (h : s.taskCancelerRegistered = false) :
    cancel s = s
    ∧ (registerAckWait (cancel s)).observerRegistered = true
    ∧ (registerAckWait (cancel s)).promise = PromiseState.pending
    ∧ (registerAckWait (cancel s)).taskCancelerRegistered = true := by
  simp [cancel, h, registerAckWait]

/-- C10 witness: the concrete pre-registration task state. -/
theorem cancel_before_registration_witness :
    cancel preRegistrationState = preRegistrationState
    ∧ (registerAckWait (cancel preRegistrationState)).observerRegistered = true
    ∧ (registerAckWait (cancel preRegistrationState)).promise =
        PromiseState.pending
    ∧ (registerAckWait (cancel preRegistrationState)).taskCancelerRegistered =
        true :=
  cancel_before_registration preRegistrationState rfl

end SubscribeAndReceiveSubscribeAckTask

/-! ## Helper lemmas about the simulcast uplink policy -/

namespace DefaultSimulcastUplinkPolicy

/-- Evaluating the bitrate fill with simulcast enabled: downscale factors 4,
2, 1 and kbps-to-bps conversion. -/
theorem fill_enabled_eval (a b c : Nat) :
    fillEncodingParamWithBitrates false [a, b, c] =
      [{ rid := "low", active := decide (0 < a), scaleResolutionDownBy := 4,
         maxBitrate := a * 1000 },
       { rid := "mid", active := decide (0 < b), scaleResolutionDownBy := 2,
         maxBitrate := b * 1000 },
       { rid := "hi", active := decide (0 < c), scaleResolutionDownBy := 1,
         maxBitrate := c * 1000 }] := by
  norm_num [fillEncodingParamWithBitrates, fillLoop, NAME_ARR_ASCENDING]

/-- Evaluating the bitrate fill with simulcast disabled: every layer keeps
downscale factor 1. -/
theorem fill_disabled_eval (a b c : Nat) :
    fillEncodingParamWithBitrates true [a, b, c] =
      [{ rid := "low", active := decide (0 < a), scaleResolutionDownBy := 1,
         maxBitrate := a * 1000 },
       { rid := "mid", active := decide (0 < b), scaleResolutionDownBy := 1,
         maxBitrate := b * 1000 },
       { rid := "hi", active := decide (0 < c), scaleResolutionDownBy := 1,
         maxBitrate := c * 1000 }] := by
  norm_num [fillEncodingParamWithBitrates, fillLoop, NAME_ARR_ASCENDING]

/-- Recomputation never touches the stored bandwidth estimate. -/
theorem calculateEncodingParameters_lastUplink (numSendersChanged : Bool)
    (s : PolicyState) :
    (calculateEncodingParameters numSendersChanged s).lastUplinkBandwidthKbps =
      s.lastUplinkBandwidthKbps := by
  rw [calculateEncodingParameters]
  split_ifs <;> rfl

/-- The two pre-hold-down mutations leave the transition timestamp, the
current layer set and the proposed map untouched; the startup grace step
within the warm-up window stores the default bandwidth. -/
theorem startupSteps_fields (nowMs : Nat) (metrics : ConnectionMetrics)
    (s : PolicyState) :
    (applyStartupGrace nowMs metrics (recordStartTime nowMs s)).lastUpdatedMs =
      s.lastUpdatedMs
    ∧ (applyStartupGrace nowMs metrics
        (recordStartTime nowMs s)).currentActiveStreams =
      s.currentActiveStreams
    ∧ (applyStartupGrace nowMs metrics (recordStartTime nowMs s)).newQualityMap =
      s.newQualityMap := by
  rw [recordStartTime, applyStartupGrace]
  split_ifs <;> exact ⟨rfl, rfl, rfl⟩

/-- Inside the warm-up window the grace step stores the default. -/
theorem startupSteps_default (nowMs : Nat) (metrics : ConnectionMetrics)
    (s : PolicyState)
    (h : s.startTimeMs = 0 ∨ nowMs - s.startTimeMs < startupDurationMs) :
    (applyStartupGrace nowMs metrics
        (recordStartTime nowMs s)).lastUplinkBandwidthKbps =
      defaultUplinkBandwidthKbps := by
  rw [recordStartTime]
  by_cases h0 : s.startTimeMs = 0
  · rw [if_pos h0, applyStartupGrace,
      if_pos (by simp [startupDurationMs] : nowMs - nowMs < startupDurationMs)]
  · rcases h with h | hwarm
    · exact absurd h h0
    · rw [if_neg h0, applyStartupGrace, if_pos hwarm]

/-- C3: whenever a layer-set recomputation actually runs (the hysteresis
gate is passed or recomputation is forced) and simulcast is not disabled,
the proposed set is HiAndLow with low at 300 kbps and high at 1200 kbps when
at most 4 senders publish and the effective uplink is at least 700 kbps;
otherwise MidAndLow when the uplink is at least 240 kbps, with low at 200
kbps when the uplink is at least 350 kbps and 150 kbps below that, and mid
at 600 kbps for at most 6 senders and 350 kbps above that; and otherwise
Low with only the 300 kbps low layer active. -/
theorem calculateEncodingParameters_bands (s : PolicyState)
    (numSendersChanged : Bool)
    (hgate : numSendersChanged = true ∨
      s.lastUplinkBandwidthKbps ≥ hysteresisIncrease s ∨
      s.lastUplinkBandwidthKbps ≤ hysteresisDecrease s)
    (hnodis : s.shouldDisableSimulcast = false) :
    (s.numSenders ≤ 4 ∧ s.lastUplinkBandwidthKbps ≥ kHiDisabledRate →
      (calculateEncodingParameters numSendersChanged s).newActiveStreams =
          ActiveStreams.kHiAndLow
      ∧ (calculateEncodingParameters numSendersChanged s).newQualityMap =
          [{ rid := "low", active := true, scaleResolutionDownBy := 4,
             maxBitrate := 300000 },
           { rid := "mid", active := false, scaleResolutionDownBy := 2,
             maxBitrate := 0 },
           { rid := "hi", active := true, scaleResolutionDownBy := 1,
             maxBitrate := 1200000 }])
    ∧ (¬(s.numSenders ≤ 4 ∧ s.lastUplinkBandwidthKbps ≥ kHiDisabledRate) →
        s.lastUplinkBandwidthKbps ≥ kMidDisabledRate →
      (calculateEncodingParameters numSendersChanged s).newActiveStreams =
          ActiveStreams.kMidAndLow
      ∧ (calculateEncodingParameters numSendersChanged s).newQualityMap =
          [{ rid := "low", active := true, scaleResolutionDownBy := 4,
             maxBitrate :=
               (if s.lastUplinkBandwidthKbps ≥ 350 then 200 else 150) * 1000 },
           { rid := "mid", active := true, scaleResolutionDownBy := 2,
             maxBitrate := (if s.numSenders ≤ 6 then 600 else 350) * 1000 },
           { rid := "hi", active := false, scaleResolutionDownBy := 1,
             maxBitrate := 0 }])
    ∧ (¬(s.numSenders ≤ 4 ∧ s.lastUplinkBandwidthKbps ≥ kHiDisabledRate) →
        ¬ s.lastUplinkBandwidthKbps ≥ kMidDisabledRate →
      (calculateEncodingParameters numSendersChanged s).newActiveStreams =
          ActiveStreams.kLow
      ∧ (calculateEncodingParameters numSendersChanged s).newQualityMap =
          [{ rid := "low", active := true, scaleResolutionDownBy := 4,
             maxBitrate := 300000 },
           { rid := "mid", active := false, scaleResolutionDownBy := 2,
             maxBitrate := 0 },
           { rid := "hi", active := false, scaleResolutionDownBy := 1,
             maxBitrate := 0 }]) := by
  have hnodis2 : ¬(s.shouldDisableSimulcast = true) := by simp [hnodis]
  refine ⟨fun h1 => ?_, fun h1 h2 => ?_, fun h1 h2 => ?_⟩
  · simp only [calculateEncodingParameters]
    rw [if_pos hgate, if_neg hnodis2, if_pos h1, hnodis, fill_enabled_eval]
    refine ⟨rfl, ?_⟩
    norm_num
  · simp only [calculateEncodingParameters]
    rw [if_pos hgate, if_neg hnodis2, if_neg h1, if_pos h2, hnodis,
      fill_enabled_eval]
    refine ⟨rfl, ?_⟩
    split_ifs <;> norm_num
  · simp only [calculateEncodingParameters]
    rw [if_pos hgate, if_neg hnodis2, if_neg h1, if_neg h2, hnodis,
      fill_enabled_eval]
    refine ⟨rfl, ?_⟩
    norm_num

/-- C3 witness: with 3 senders, an 800 kbps estimate and a forced
recomputation, the high band applies. -/
theorem calculateEncodingParameters_bands_witness :
    policyStateHighBand.numSenders ≤ 4
    ∧ policyStateHighBand.lastUplinkBandwidthKbps ≥ kHiDisabledRate
    ∧ (calculateEncodingParameters true policyStateHighBand).newActiveStreams =
        ActiveStreams.kHiAndLow
    ∧ (calculateEncodingParameters true policyStateHighBand).newQualityMap =
        [{ rid := "low", active := true, scaleResolutionDownBy := 4,
           maxBitrate := 300000 },
         { rid := "mid", active := false, scaleResolutionDownBy := 2,
           maxBitrate := 0 },
         { rid := "hi", active := true, scaleResolutionDownBy := 1,
           maxBitrate := 1200000 }] := by
  have h := (calculateEncodingParameters_bands policyStateHighBand true
    (Or.inl rfl) rfl).1 ⟨by decide, by decide⟩
  exact ⟨by decide, by decide, h.1, h.2⟩

/-- C4: whenever simulcast is administratively disabled (at most 2
participants) and a recomputation runs, the computed parameter map has
exactly one active layer — the mid layer at 1200 kbps with downscale factor
1 — and the low and high layers inactive, for every value of the last
uplink sample. -/
theorem disabled_single_mid_layer (s : PolicyState) (numSendersChanged : Bool)
    (hgate : numSendersChanged = true ∨
      s.lastUplinkBandwidthKbps ≥ hysteresisIncrease s ∨
      s.lastUplinkBandwidthKbps ≤ hysteresisDecrease s)
    (hdis : s.shouldDisableSimulcast = true) :
    (calculateEncodingParameters numSendersChanged s).newQualityMap =
      [{ rid := "low", active := false, scaleResolutionDownBy := 1,
         maxBitrate := 0 },
       { rid := "mid", active := true, scaleResolutionDownBy := 1,
         maxBitrate := 1200000 },
       { rid := "hi", active := false, scaleResolutionDownBy := 1,
         maxBitrate := 0 }] := by
  simp only [calculateEncodingParameters]
  rw [if_pos hgate, if_pos hdis, hdis, fill_disabled_eval]
  norm_num

/-- C4 witness: simulcast disabled with a 50 kbps estimate and a forced
recomputation still yields the single 1200 kbps mid layer. -/
theorem disabled_single_mid_layer_witness :
    (calculateEncodingParameters true policyStateDisabled).newQualityMap =
      [{ rid := "low", active := false, scaleResolutionDownBy := 1,
         maxBitrate := 0 },
       { rid := "mid", active := true, scaleResolutionDownBy := 1,
         maxBitrate := 1200000 },
       { rid := "hi", active := false, scaleResolutionDownBy := 1,
         maxBitrate := 0 }] :=
  disabled_single_mid_layer policyStateDisabled true (Or.inl rfl) rfl

/-- C5: a valid sample processed before the hold-down window that started at
the last transition has elapsed never recomputes the proposed quality map,
where the window is 8000 ms while currently in the lowest tier, 2000 ms when
currently in MidAndLow with the raw sample at most 240 kbps or currently in
HiAndLow with the raw sample at most 700 kbps, and 4000 ms otherwise — the
window length depends on the current, not the proposed, layer set. -/
theorem updateConnectionMetric_holdDown (s : PolicyState) (nowMs : Nat)
    (metrics : ConnectionMetrics)
    (h1 : metrics.isNaN = false)
    (h2 : nowMs < s.lastUpdatedMs +
      holdTimeOf s.currentActiveStreams metrics.uplinkKbps) :
    (updateConnectionMetric nowMs metrics s).newQualityMap = s.newQualityMap
    ∧ holdTimeOf ActiveStreams.kLow metrics.uplinkKbps = 8000
    ∧ (metrics.uplinkKbps ≤ kMidDisabledRate →
        holdTimeOf ActiveStreams.kMidAndLow metrics.uplinkKbps = 2000)
    ∧ (metrics.uplinkKbps ≤ kHiDisabledRate →
        holdTimeOf ActiveStreams.kHiAndLow metrics.uplinkKbps = 2000)
    ∧ (¬ metrics.uplinkKbps ≤ kMidDisabledRate →
        holdTimeOf ActiveStreams.kMidAndLow metrics.uplinkKbps = 4000)
    ∧ (¬ metrics.uplinkKbps ≤ kHiDisabledRate →
        holdTimeOf ActiveStreams.kHiAndLow metrics.uplinkKbps = 4000)
    ∧ holdTimeOf ActiveStreams.kHi metrics.uplinkKbps = 4000 := by
  refine ⟨?_, ?_, fun h => ?_, fun h => ?_, fun h => ?_, fun h => ?_, ?_⟩
  · have hf := startupSteps_fields nowMs metrics s
    simp only [updateConnectionMetric, h1, Bool.false_eq_true, if_false]
    rw [hf.1, hf.2.1, if_pos h2]
    exact hf.2.2
  · simp [holdTimeOf, holdDownDurationMs]
  · simp [holdTimeOf, holdDownDurationMs, h]
  · simp [holdTimeOf, holdDownDurationMs, h]
  · simp [holdTimeOf, holdDownDurationMs, h]
  · simp [holdTimeOf, holdDownDurationMs, h]
  · simp [holdTimeOf, holdDownDurationMs]

/-- C5 witness: in the lowest tier a 50 kbps sample at 5000 ms, 4000 ms
after the last transition, is still inside the doubled 8000 ms window and
leaves the proposed map untouched. -/
theorem updateConnectionMetric_holdDown_witness :
    (updateConnectionMetric 5000 metrics50 policyStateLowTier).newQualityMap =
      policyStateLowTier.newQualityMap
    ∧ holdTimeOf ActiveStreams.kLow metrics50.uplinkKbps = 8000 := by
  have h := updateConnectionMetric_holdDown policyStateLowTier 5000 metrics50
    rfl (by decide)
  exact ⟨h.1, h.2.1⟩

/-- C8: every valid sample arriving while the warm-up window is open — it is
the first valid sample, or it arrives less than 6000 ms after the first one
— stores the fixed 1200 kbps default as the effective bandwidth instead of
the raw sample value. -/
theorem updateConnectionMetric_startup (s : PolicyState) (nowMs : Nat)
    (metrics : ConnectionMetrics)
    (h1 : metrics.isNaN = false)
    (h2 : s.startTimeMs = 0 ∨ nowMs - s.startTimeMs < startupDurationMs) :
    (updateConnectionMetric nowMs metrics s).lastUplinkBandwidthKbps =
      defaultUplinkBandwidthKbps := by
  have hd := startupSteps_default nowMs metrics s h2
  simp only [updateConnectionMetric, h1, Bool.false_eq_true, if_false]
  by_cases hhold : nowMs <
      (applyStartupGrace nowMs metrics (recordStartTime nowMs s)).lastUpdatedMs +
      holdTimeOf
        (applyStartupGrace nowMs metrics
          (recordStartTime nowMs s)).currentActiveStreams metrics.uplinkKbps
  · rw [if_pos hhold]
    exact hd
  · rw [if_neg hhold, calculateEncodingParameters_lastUplink]
    exact hd

/-- C8 witness: a 50 kbps sample arriving 1000 ms after the first valid
sample stores the 1200 kbps default, not 50 kbps. -/
theorem updateConnectionMetric_startup_witness :
    (updateConnectionMetric 1001 metrics50 policyStateWarmup).lastUplinkBandwidthKbps =
      defaultUplinkBandwidthKbps :=
  updateConnectionMetric_startup policyStateWarmup 1001 metrics50 rfl
    (Or.inr (by decide))

/-- A quality map agrees with itself on every rid. -/
theorem qualityMapsEqual_refl (m : List RTCRtpEncodingParameters) :
    qualityMapsEqual m m = true := by
  simp [qualityMapsEqual]

/-- The wantsResubscribe loop over the next descriptions ors the
disabled-flag flips into the accumulator. -/
theorem wantsResubscribeLoop_eq (curr : List VideoStreamDescription)
    (next : List VideoStreamDescription) (b : Bool) :
    wantsResubscribeLoop curr next b = (b || disabledFlagFlipped next curr) := by
  induction next generalizing b with
  | nil => simp [wantsResubscribeLoop, disabledFlagFlipped]
  | cons d rest ih =>
    have hstep :
        (if d.streamId != 0 then
          match curr.find? (fun v => v.streamId = d.streamId) with
          | some prev =>
            if d.disabledByWebRTC != prev.disabledByWebRTC then true else b
          | none => b
        else b) = (b || descriptionFlagFlipped curr d) := by
      cases hid : d.streamId != 0 with
      | false => simp [descriptionFlagFlipped, hid]
      | true =>
        cases hfind : curr.find? (fun v => v.streamId = d.streamId) with
        | none => simp [descriptionFlagFlipped, hid, hfind]
        | some prev =>
          cases hflip : d.disabledByWebRTC != prev.disabledByWebRTC with
          | false => simp [descriptionFlagFlipped, hid, hfind, hflip]
          | true => simp [descriptionFlagFlipped, hid, hfind, hflip]
    have hfold : wantsResubscribeLoop curr (d :: rest) b =
        wantsResubscribeLoop curr rest
          (if d.streamId != 0 then
            match curr.find? (fun v => v.streamId = d.streamId) with
            | some prev =>
              if d.disabledByWebRTC != prev.disabledByWebRTC then true else b
            | none => b
          else b) := rfl
    rw [hfold, hstep, ih]
    simp [disabledFlagFlipped, Bool.or_assoc]

/-- C9 counterexample: with a proposed map that drifted from the committed
one and no commit, parameter change or disabled-flag flip in between, two
successive wantsResubscribe calls both return true — refuting the claim
that after the call returning true it returns false until the next
parameter change or flag flip. -/
theorem wantsResubscribe_true_twice_counterexample :
    (wantsResubscribe 100 [] driftedPolicyState).1 = true
    ∧ (wantsResubscribe 200 []
        (wantsResubscribe 100 [] driftedPolicyState).2).1 = true
    ∧ (wantsResubscribe 100 [] driftedPolicyState).2.newQualityMap =
        driftedPolicyState.newQualityMap
    ∧ (wantsResubscribe 100 [] driftedPolicyState).2.currentQualityMap =
        driftedPolicyState.currentQualityMap := by
  have hnew : driftedPolicyState.newQualityMap =
      [{ rid := "low", active := true, scaleResolutionDownBy := 4,
         maxBitrate := 300000 },
       { rid := "mid", active := false, scaleResolutionDownBy := 2,
         maxBitrate := 0 },
       { rid := "hi", active := false, scaleResolutionDownBy := 1,
         maxBitrate := 0 }] := by
    show fillEncodingParamWithBitrates false [300, 0, 0] = _
    rw [fill_enabled_eval]
    norm_num
  have hcur : driftedPolicyState.currentQualityMap =
      [{ rid := "low", active := true, scaleResolutionDownBy := 4,
         maxBitrate := 300000 },
       { rid := "mid", active := false, scaleResolutionDownBy := 2,
         maxBitrate := 0 },
       { rid := "hi", active := true, scaleResolutionDownBy := 1,
         maxBitrate := 1200000 }] := by
    show fillEncodingParamWithBitrates false [300, 0, 1200] = _
    rw [fill_enabled_eval]
    norm_num
  have heq : encodingParametersEqual driftedPolicyState = false := by
    rw [encodingParametersEqual, hnew, hcur]
    decide
  have hstate : (wantsResubscribe 100 [] driftedPolicyState).2 =
      { driftedPolicyState with
        nextLocalDescriptions := []
        lastUpdatedMs := 100
        currLocalDescriptions := [] } := by
    simp [wantsResubscribe, wantsResubscribeLoop, heq]
  have heq2 : encodingParametersEqual
      { driftedPolicyState with
        nextLocalDescriptions := []
        lastUpdatedMs := 100
        currLocalDescriptions := [] } = false := by
    rw [encodingParametersEqual]
    show qualityMapsEqual driftedPolicyState.newQualityMap
      driftedPolicyState.currentQualityMap = false
    rw [hnew, hcur]
    decide
  refine ⟨?_, ?_, ?_, ?_⟩
  · simp [wantsResubscribe, wantsResubscribeLoop, heq]
  · rw [hstate]
    simp [wantsResubscribe, wantsResubscribeLoop, heq2]
  · rw [hstate]
  · rw [hstate]

/-- C9 amended: wantsResubscribe returns true exactly when the proposed map
differs from the committed one or a tracked stream flipped its
disabledByWebRTC flag since the last snapshot — so it keeps returning true
until chooseEncodingParameters commits the proposal, after which the two
maps agree and it returns false until the next parameter change or flag
flip; a true call refreshes the last-transition timestamp and the call
snapshots the descriptions, and the call never changes either quality
map. -/
theorem wantsResubscribe_characterization (nowMs : Nat)
    (descs : List VideoStreamDescription) (s : PolicyState) :
    (wantsResubscribe nowMs descs s).1 =
      (! encodingParametersEqual s ||
        disabledFlagFlipped descs s.currLocalDescriptions)
    ∧ (wantsResubscribe nowMs descs s).2.lastUpdatedMs =
        (if (wantsResubscribe nowMs descs s).1 = true then nowMs
         else s.lastUpdatedMs)
    ∧ (wantsResubscribe nowMs descs s).2.currLocalDescriptions = descs
    ∧ (wantsResubscribe nowMs descs s).2.newQualityMap = s.newQualityMap
    ∧ (wantsResubscribe nowMs descs s).2.currentQualityMap =
        s.currentQualityMap
    ∧ encodingParametersEqual (chooseEncodingParameters s).2 = true := by
  have hloop := wantsResubscribeLoop_eq s.currLocalDescriptions descs
    (! encodingParametersEqual s)
  have hsync : encodingParametersEqual (chooseEncodingParameters s).2 = true := by
    rw [chooseEncodingParameters]
    by_cases hpub : some s.newActiveStreams = s.activeStreamsToPublish
    · simp only [hpub, ite_not, if_pos rfl]
      exact qualityMapsEqual_refl s.newQualityMap
    · have hne : s.activeStreamsToPublish ≠ some s.newActiveStreams :=
        fun h => hpub h.symm
      simp only [if_pos hne]
      exact qualityMapsEqual_refl s.newQualityMap
  by_cases hc : wantsResubscribeLoop s.currLocalDescriptions descs
      (! encodingParametersEqual s) = true
  · have hpair : wantsResubscribe nowMs descs s =
        (true,
          { s with
            nextLocalDescriptions := descs
            lastUpdatedMs := nowMs
            currLocalDescriptions := descs }) := by
      simp [wantsResubscribe, hc]
    rw [hpair]
    refine ⟨by rw [← hloop, hc], by simp, rfl, rfl, rfl, hsync⟩
  · have hcf : wantsResubscribeLoop s.currLocalDescriptions descs
        (! encodingParametersEqual s) = false := by
      simpa using hc
    have hpair : wantsResubscribe nowMs descs s =
        (false,
          { s with
            nextLocalDescriptions := descs
            currLocalDescriptions := descs }) := by
      simp [wantsResubscribe, hcf]
    rw [hpair]
    refine ⟨by rw [← hloop, hcf], by simp, rfl, rfl, rfl, hsync⟩

end DefaultSimulcastUplinkPolicy

end ChimeSdk
